import Mathlib

/-!
# Verification of the unison-actuation dispatch core

Shallow embedding of the actuation service (`unison_actuation/app.py`,
`unison_actuation/schemas.py`, `unison_actuation/drivers/*.py`):
risk levels, action envelopes, capability routing, the policy gate,
the `/actuate` dispatcher, the telemetry ring buffer and the VDI
task-proxy retry loop.  External HTTP interactions are modelled by
explicit oracle values (the response the network would deliver);
Python exceptions are modelled with `Except`.
-/

namespace Unison

/-- `RiskLevel(str, enum.Enum)` from `schemas.py` with members low/medium/high. -/
inductive RiskLevel where
  | low
  | medium
  | high
deriving DecidableEq, Repr

/-- The underlying string value of a `RiskLevel` member (`.value` in Python). -/
def RiskLevel.val : RiskLevel → String
  | .low => "low"
  | .medium => "medium"
  | .high => "high"

/-- `RiskLevel(s)`: enum lookup by value; `none` models the `ValueError` raised
on an unknown value. -/
def riskOfString (s : String) : Option RiskLevel :=
  if s = "low" then some .low
  else if s = "medium" then some .medium
  else if s = "high" then some .high
  else none

/-- Python string `<` on two strings: lexicographic comparison of code points.
This is the comparison `str.__lt__` performs, which is what comparing two
members of a `(str, Enum)` class with `<`/`>` resolves to. -/
def pyStrLtAux : List Char → List Char → Bool
  | [], [] => false
  | [], _ :: _ => true
  | _ :: _, [] => false
  | a :: as, b :: bs =>
    if a.val < b.val then true
    else if b.val < a.val then false
    else pyStrLtAux as bs

/-- Python `a < b` on strings. -/
def pyStrLt (a b : String) : Bool :=
  pyStrLtAux a.data b.data

/-- The dispatcher's ceiling test `RiskLevel(envelope.risk_level) > RiskLevel(allowed)`
(`app.py`): since `RiskLevel` mixes in `str`, `>` compares the members' string
values lexicographically. -/
def riskExceedsPy (envRisk ceiling : RiskLevel) : Bool :=
  pyStrLt ceiling.val envRisk.val

/-- Modelled from the spec: section 9 prescribes an explicit integer severity
rank for risk levels, low 0, medium 1, high 2; comparisons are on ranks.
This definition follows the spec's words and exists to be compared against the
source's `riskExceedsPy`. -/
def riskRank : RiskLevel → Nat
  | .low => 0
  | .medium => 1
  | .high => 2

/-- Modelled from the spec: the severity-ordered ceiling test of section 9 —
reject exactly when the envelope's rank strictly exceeds the ceiling's rank. -/
def riskExceedsRank (envRisk ceiling : RiskLevel) : Bool :=
  decide (riskRank ceiling < riskRank envRisk)

/-- `ActionIntent` (`schemas.py`).  Parameter values are opaque payload for
every property verified here; they are simplified to strings. -/
structure ActionIntent where
  name : String
  parameters : List (String × String)
deriving DecidableEq, Repr

/-- `ActionTarget` (`schemas.py`). -/
structure ActionTarget where
  device_id : String
  device_class : String
  location : Option String
  endpoint : Option String
deriving DecidableEq, Repr

/-- `ActionConstraints` (`schemas.py`). -/
structure ActionConstraints where
  max_duration_ms : Option Nat
  required_confirmations : Nat
  quiet_hours : Option (List String)
  allowed_risk_levels : Option (List RiskLevel)
deriving DecidableEq, Repr

/-- `PolicyContext` (`schemas.py`). -/
structure PolicyContext where
  scopes : List String
  consent_reference : Option String
  justification : Option String
  risk_level : RiskLevel
deriving DecidableEq, Repr

/-- `TelemetryChannel` (`schemas.py`). -/
structure TelemetryChannel where
  topic : String
  delivery : String
  include_parameters : Bool
deriving DecidableEq, Repr

/-- `ActionEnvelope` (`schemas.py`); generated/default fields (uuid, timestamps)
are carried as given data. -/
structure ActionEnvelope where
  action_id : String
  person_id : String
  target : ActionTarget
  intent : ActionIntent
  risk_level : RiskLevel
  constraints : ActionConstraints
  policy_context : PolicyContext
  telemetry_channel : Option TelemetryChannel
deriving DecidableEq, Repr

/-- `ActionDecision` (`schemas.py`). -/
structure ActionDecision where
  permitted : Bool
  status : String
  reason : Option String
  risk_level : RiskLevel
  requires_confirmation : Bool
  rewritten_intent : Option ActionIntent
deriving DecidableEq, Repr

/-- A telemetry value (`ActionResult.telemetry` holds heterogeneous JSON
values: strings, booleans, parameter maps). -/
inductive TelemVal where
  | s (v : String)
  | b (v : Bool)
  | pm (v : List (String × String))
deriving DecidableEq, Repr

/-- `ActionResult` (`schemas.py`). -/
structure ActionResult where
  action_id : String
  status : String
  message : Option String
  telemetry : List (String × TelemVal)
  driver : Option String
deriving DecidableEq, Repr

/-- `Capability` (`drivers/base.py`): a name plus an optional set of device
classes (the empty list models the empty set). -/
structure Capability where
  name : String
  device_classes : List String
deriving DecidableEq, Repr

/-- `Capability.matches` (`drivers/base.py`):
`if self.device_classes and envelope.target.device_class not in self.device_classes:
return False` followed by `return envelope.intent.name == self.name`. -/
def Capability.matches (c : Capability) (env : ActionEnvelope) : Bool :=
  if !c.device_classes.isEmpty && !(c.device_classes.contains env.target.device_class) then
    false
  else
    env.intent.name == c.name

/-- The closed set of drivers registered in `app.py`. -/
inductive Driver where
  | logging
  | desktop
  | mockHome
  | mockRobot
  | mqtt
deriving DecidableEq, Repr

/-- `name()` of each driver. -/
def Driver.name : Driver → String
  | .logging => "logging"
  | .desktop => "desktop-automation"
  | .mockHome => "mock-home"
  | .mockRobot => "mock-robot"
  | .mqtt => "mqtt"

/-- `capabilities()` of each driver (the `LoggingDriver` is constructed with
`accept_all = True` everywhere in `app.py`, so it declares the `*` capability). -/
def Driver.capabilities : Driver → List Capability
  | .logging => [⟨"*", []⟩]
  | .desktop =>
      [⟨"desktop.command", ["desktop", "browser"]⟩,
       ⟨"desktop.navigate", ["desktop", "browser"]⟩]
  | .mockHome =>
      [⟨"turn_on", ["light", "switch"]⟩,
       ⟨"turn_off", ["light", "switch"]⟩,
       ⟨"set_brightness", ["light"]⟩]
  | .mockRobot =>
      [⟨"robot.move", ["robot"]⟩,
       ⟨"robot.dock", ["robot"]⟩,
       ⟨"robot.stop", ["robot"]⟩]
  | .mqtt => [⟨"device.publish", ["mqtt"]⟩]

/-- `max_risk_level()`: `BaseDriver` defaults to `"high"`; `MqttDriver`
overrides with `"medium"`. -/
def Driver.max_risk_level : Driver → String
  | .mqtt => "medium"
  | _ => "high"

/-- `can_handle`: `BaseDriver` checks `any(cap.matches(envelope) ...)`;
`LoggingDriver` overrides with `self.accept_all or super().can_handle(...)`
and is always constructed with `accept_all = True`. -/
def Driver.can_handle (d : Driver) (env : ActionEnvelope) : Bool :=
  match d with
  | .logging => true
  | _ => d.capabilities.any (fun c => c.matches env)

/-- `DriverRegistry.route` (`drivers/base.py`): scan the registered list and
return the first driver that can handle the envelope; raise `DriverError`
(modelled as `Except.error` carrying the message) when none matches. -/
def route : List Driver → ActionEnvelope → Except String Driver
  | [], env =>
    .error ("No driver registered for intent '" ++ env.intent.name
      ++ "' and device_class '" ++ env.target.device_class ++ "'")
  | d :: ds, env => if d.can_handle env then .ok d else route ds env

/-- The fixed registry built at module load in `app.py`. -/
def defaultRegistry : List Driver :=
  [.logging, .desktop, .mockHome, .mockRobot, .mqtt]

/-- Process configuration read from the environment at module load
(`app.py` globals): the parsed `ACTUATION_ALLOWED_RISK_LEVELS` set, the
optional `POLICY_URL`, the logging-only flag, auth settings, the parsed
`ACTUATION_REQUIRED_SCOPES` set, the driver registry in use, and the MQTT
backend state (`asyncio_mqtt` import success, broker, publish outcome). -/
structure AppConfig where
  allowedRiskLevels : List String
  policyUrl : Option String
  loggingOnly : Bool
  requireAuth : Bool
  serviceToken : Option String
  requiredScopes : List String
  drivers : List Driver
  mqttImportOk : Bool
  mqttPublishError : Option String
  mqttBroker : String
deriving DecidableEq, Repr

/-- `execute` of each driver (`drivers/*.py`).  A raised `DriverError` is
`Except.error` carrying its message.  The MQTT driver's lazy optional backend
and publish outcome come from the configuration. -/
def Driver.execute (cfg : AppConfig) : Driver → ActionEnvelope → Except String ActionResult
  | .logging, env =>
    .ok ⟨env.action_id, "logged", some "Action recorded only (logging mode)",
      [("logged", .b true)], some "logging"⟩
  | .desktop, env =>
    if env.intent.name == "desktop.command" || env.intent.name == "desktop.navigate" then
      .ok ⟨env.action_id, "accepted", some "Desktop automation stub executed",
        [("parameters", .pm env.intent.parameters)], some "desktop-automation"⟩
    else
      .error ("Unsupported desktop intent " ++ env.intent.name)
  | .mockHome, env =>
    if env.intent.name == "turn_on" || env.intent.name == "turn_off"
        || env.intent.name == "set_brightness" then
      .ok ⟨env.action_id, "completed",
        some ("Mock home action " ++ env.intent.name ++ " applied"),
        [("device_id", .s env.target.device_id), ("intent", .s env.intent.name)],
        some "mock-home"⟩
    else
      .error ("Unsupported home intent " ++ env.intent.name)
  | .mockRobot, env =>
    if env.intent.name == "robot.move" || env.intent.name == "robot.dock"
        || env.intent.name == "robot.stop" then
      .ok ⟨env.action_id,
        (if env.intent.name == "robot.stop" then "halted" else "completed"),
        some ("Mock robot intent " ++ env.intent.name ++ " executed"),
        [("intent", .s env.intent.name), ("pose", .pm env.intent.parameters)],
        some "mock-robot"⟩
    else
      .error ("Unsupported robot intent " ++ env.intent.name)
  | .mqtt, env =>
    match env.intent.parameters.lookup "topic" with
    | none => .error "MQTT topic required"
    | some topic =>
      if topic == "" then .error "MQTT topic required"
      else if !cfg.mqttImportOk then
        .ok ⟨env.action_id, "logged", some "MQTT client not installed; action logged only",
          [("topic", .s topic), ("broker", .s cfg.mqttBroker)], some "mqtt"⟩
      else
        match cfg.mqttPublishError with
        | some e => .error ("MQTT publish failed: " ++ e)
        | none =>
          .ok ⟨env.action_id, "completed", some "MQTT publish sent",
            [("topic", .s topic), ("broker", .s cfg.mqttBroker)], some "mqtt"⟩

/-- Body of a response from the external policy service, already
JSON-decoded.  `none` in a field models an absent (or JSON-null) key, so that
`data.get(k, default)` is `Option.getD`. -/
structure PolicyBody where
  permitted : Option Bool
  status : Option String
  reason : Option String
  requires_confirmation : Option Bool
  rewritten_intent : Option ActionIntent
deriving DecidableEq, Repr

/-- Oracle for one call to the external policy service: either a
transport-level `httpx.RequestError`, or an HTTP response with a status code
and a body (`none` body = `response.json()` would raise). -/
inductive PolicyNet where
  | transportError (msg : String)
  | response (status : Nat) (body : Option PolicyBody)
deriving DecidableEq, Repr

/-- A Python exception escaping `evaluate_policy`: a transport error from
`httpx`, or a JSON decode error from `response.json()`. -/
inductive GateError where
  | transport (msg : String)
  | jsonError
deriving DecidableEq, Repr

/-- The f-string `f"Risk level {proposed_risk} not enabled"`.  The exact
rendering of the enum member inside the f-string is Python-version dependent
("RiskLevel.low" on current CPython); all properties verified here use only
that the reason is a non-null string. -/
def riskRejectReason (r : RiskLevel) : String :=
  "Risk level RiskLevel." ++ r.val ++ " not enabled"

/-- `evaluate_policy` (`app.py`).  Returns the decision (or the escaping
exception) paired with a flag recording whether the external policy service
was contacted.  The local allowlist check runs first; with no `POLICY_URL` a
local decision is returned; otherwise the oracle response is consumed:
a status of 400 or above is mapped to a rejection, any other response has its
body's fields mapped into the decision. -/
def evaluate_policy (cfg : AppConfig) (env : ActionEnvelope) (net : PolicyNet) :
    Except GateError ActionDecision × Bool :=
  let proposed := env.risk_level
  if !(cfg.allowedRiskLevels.contains proposed.val) then
    (.ok ⟨false, "rejected", some (riskRejectReason proposed), proposed, false, none⟩, false)
  else
    match cfg.policyUrl with
    | none =>
      (.ok ⟨true, "permitted", none, proposed,
        decide (0 < env.constraints.required_confirmations), none⟩, false)
    | some _ =>
      match net with
      | .transportError m => (.error (.transport m), true)
      | .response s body? =>
        if 400 ≤ s then
          (.ok ⟨false, "rejected",
            some ("Policy evaluation failed (" ++ toString s ++ ")"),
            proposed, false, none⟩, true)
        else
          match body? with
          | none => (.error .jsonError, true)
          | some b =>
            (.ok ⟨b.permitted.getD false, b.status.getD "unknown", b.reason,
              proposed, b.requires_confirmation.getD false, none⟩, true)

/-- Replace every non-overlapping occurrence of `pat` in the list, scanning
left to right (Python `str.replace` for a non-empty pattern).  The fuel is
the input length; it never runs out because each step consumes at least one
character. -/
def pyReplaceGo (pat rep : List Char) : Nat → List Char → List Char
  | _, [] => []
  | 0, l => l
  | fuel + 1, c :: cs =>
    if !pat.isEmpty && pat.isPrefixOf (c :: cs) then
      rep ++ pyReplaceGo pat rep fuel (List.drop pat.length (c :: cs))
    else
      c :: pyReplaceGo pat rep fuel cs

/-- Python `s.replace(pat, rep)` (non-empty pattern). -/
def pyReplace (s pat rep : String) : String :=
  ⟨pyReplaceGo pat.data rep.data s.data.length s.data⟩

/-- Python `s.strip()`: remove leading and trailing whitespace. -/
def pyStrip (s : String) : String :=
  ⟨((s.data.dropWhile Char.isWhitespace).reverse.dropWhile Char.isWhitespace).reverse⟩

/-- Python `s.startswith(p)`. -/
def pyStartsWith (s p : String) : Bool :=
  p.data.isPrefixOf s.data

/-- A request-scoped error surfaced by the service: an `HTTPException`
(status code plus detail string) or an unhandled Python exception that FastAPI
would turn into a 500. -/
inductive AppError where
  | http (status : Nat) (detail : String)
  | pythonError (msg : String)
deriving DecidableEq, Repr

/-- Python `x or default` for an optional string `x`: a missing or empty
string falls back to the default. -/
def pyOrStr (x : Option String) (dflt : String) : String :=
  match x with
  | none => dflt
  | some v => if v = "" then dflt else v

/-- `get_decision` (`app.py`): evaluate the gate, raise `HTTPException(403)`
with the decision's reason (or the fallback text) when not permitted,
otherwise return the decision (`ensure_confirmed` is a no-op). -/
def get_decision (cfg : AppConfig) (env : ActionEnvelope) (net : PolicyNet) :
    Except AppError ActionDecision × Bool :=
  match evaluate_policy cfg env net with
  | (.error (.transport m), called) => (.error (.pythonError m), called)
  | (.error .jsonError, called) => (.error (.pythonError "json decode error"), called)
  | (.ok d, called) =>
    if !d.permitted then
      (.error (.http 403 (pyOrStr d.reason "Policy rejected action")), called)
    else
      (.ok d, called)

/-- `verify_auth` (`app.py`): when auth is required, strip the bearer prefix
from the header and compare with the configured service token; a missing or
empty configured token, or a mismatch, raises `HTTPException(401)`. -/
def verify_auth (cfg : AppConfig) (authHeader : Option String) : Except AppError Unit :=
  if !cfg.requireAuth then .ok ()
  else
    let auth := authHeader.getD ""
    let token := pyStrip (pyReplace auth "Bearer " "")
    let st := cfg.serviceToken.getD ""
    if st = "" ∨ token ≠ st then
      .error (.http 401 "Invalid or missing service token")
    else
      .ok ()

/-- Successful outcome of `POST /actuate`: a 200 with an `ActionResult`, or
the 202 awaiting-confirmation payload. -/
inductive ActuateResponse where
  | result (r : ActionResult)
  | pending (action_id : String) (risk : RiskLevel)
deriving DecidableEq, Repr

/-- The body of the `actuate` route after its dependencies resolved
(`app.py`), parameterized by the risk-ceiling comparison used so that the
source's string comparison can be compared against the spec's rank
comparison: confirmation short-circuit, routing (or the logging driver in
logging-only mode), the per-driver risk ceiling (`hasattr` is always true
since `BaseDriver` defines `max_risk_level`), the scope requirement, the
rewritten-intent substitution, and execution.  `DriverError` raised during
routing or execution is turned into a 400 by the registered exception
handler. -/
def actuate_core (riskGt : RiskLevel → RiskLevel → Bool) (cfg : AppConfig)
    (env : ActionEnvelope) (decision : ActionDecision) : Except AppError ActuateResponse :=
  if decision.requires_confirmation then
    .ok (.pending env.action_id decision.risk_level)
  else
    match (if cfg.loggingOnly then Except.ok Driver.logging else route cfg.drivers env) with
    | .error e => .error (.http 400 e)
    | .ok driver =>
      match riskOfString driver.max_risk_level with
      | none => .error (.pythonError "ValueError: invalid RiskLevel value")
      | some ceiling =>
        if riskGt env.risk_level ceiling then
          .error (.http 403 "Risk level exceeds driver allowance")
        else if !cfg.requiredScopes.isEmpty
            && (env.policy_context.scopes.isEmpty
              || !(env.policy_context.scopes.any (fun sc =>
                    cfg.requiredScopes.contains sc || pyStartsWith sc "actuation."))) then
          .error (.http 403 "Missing required actuation scope")
        else
          let env2 :=
            match decision.rewritten_intent with
            | some i => { env with intent := i }
            | none => env
          match driver.execute cfg env2 with
          | .error e => .error (.http 400 e)
          | .ok r => .ok (.result r)

/-- The full `POST /actuate` request pipeline, parameterized by the
risk-ceiling comparison.  FastAPI resolves the route's dependencies in
declaration order: `get_decision` (which may raise 403) runs before
`verify_auth` (which may raise 401); an exception in either aborts the
request.  The second component records whether the external policy service
was contacted. -/
def actuateWith (riskGt : RiskLevel → RiskLevel → Bool) (cfg : AppConfig)
    (env : ActionEnvelope) (net : PolicyNet) (authHeader : Option String) :
    Except AppError ActuateResponse × Bool :=
  match get_decision cfg env net with
  | (.error e, called) => (.error e, called)
  | (.ok d, called) =>
    match verify_auth cfg authHeader with
    | .error e => (.error e, called)
    | .ok _ => (actuate_core riskGt cfg env d, called)

/-- `POST /actuate` as implemented: the ceiling comparison is the Python
string comparison on the `(str, Enum)` members. -/
def actuate (cfg : AppConfig) (env : ActionEnvelope) (net : PolicyNet)
    (authHeader : Option String) : Except AppError ActuateResponse × Bool :=
  actuateWith riskExceedsPy cfg env net authHeader

/-- The last `k` elements of a list, in order (what Python's `lst[-k:]`
yields for `k ≥ 1`). -/
def lastN (k : Nat) (l : List α) : List α :=
  l.drop (l.length - k)

/-- `collections.deque(maxlen=n).append`: append on the right, silently
evicting from the left when the length would exceed `maxlen`. -/
def dequePush (maxlen : Nat) (buf : List α) (e : α) : List α :=
  let b := buf ++ [e]
  if maxlen < b.length then b.drop (b.length - maxlen) else b

/-- `TELEMETRY_LOG.append(event)` — the ring buffer has capacity 100
(`deque(maxlen=100)` in `app.py`). -/
def telemetryPush (buf : List α) (e : α) : List α :=
  dequePush 100 buf e

/-- The buffer contents after publishing a sequence of events into the
initially empty `TELEMETRY_LOG`. -/
def publishAll (evs : List α) : List α :=
  evs.foldl telemetryPush []

/-- `GET /telemetry/recent` (`app.py`): `list(TELEMETRY_LOG)[-limit:]`.
Python's slice `[-limit:]` with `limit = 0` is `[0:]`, the whole list. -/
def telemetry_recent (buf : List α) (limit : Nat) : List α :=
  if limit = 0 then buf else buf.drop (buf.length - limit)

/-- A JSON detail carried by a task-proxy error: a decoded JSON body or the
raw response text (`resp.json()` / `resp.text` in `app.py`). -/
inductive Detail where
  | ofText (s : String)
  | ofJson (s : String)
deriving DecidableEq, Repr

/-- Oracle for one underlying call of the task proxy: a transport error
(`httpx.RequestError`) or a response with status code, a decodable JSON body
(`none` = `resp.json()` raises) and the raw text. -/
inductive CallOutcome where
  | transportError (msg : String)
  | response (status : Nat) (json : Option String) (text : String)
deriving DecidableEq, Repr

/-- `try: last_detail = resp.json() except: last_detail = resp.text`. -/
def jsonOrText (js : Option String) (tx : String) : Detail :=
  match js with
  | some j => .ofJson j
  | none => .ofText tx

/-- An `HTTPException` raised by `_call_vdi`: the 502 upstream-unavailable
error wrapping the last observed detail
(`detail = {"error": "vdi_unavailable", "detail": last_detail}`), a
pass-through HTTP error with the response's detail, or an uncaught JSON
decode error on a success response. -/
inductive VdiError where
  | unavailable (lastDetail : Detail)
  | http (status : Nat) (detail : Detail)
  | jsonError
deriving DecidableEq, Repr

/-- Is this outcome in the retried class (`httpx.RequestError`, HTTP 429, or
HTTP 5xx)? -/
def retryableB : CallOutcome → Bool
  | .transportError _ => true
  | .response s _ _ => s == 429 || 500 ≤ s

/-- The error `_call_vdi` raises when its final attempt observes a retryable
outcome: 502 upstream-unavailable for a transport error, the pass-through
status with the response's detail for 429/5xx. -/
def exhaustErr : CallOutcome → VdiError
  | .transportError msg => .unavailable (.ofText msg)
  | .response s js tx => .http s (jsonOrText js tx)

/-- Result of `_call_vdi`: the returned body or raised error, the number of
underlying calls made, and the backoff delays slept between attempts. -/
structure CallRes where
  result : Except VdiError String
  calls : Nat
  delays : List ℚ
deriving Repr

/-- The `for attempt in range(1, attempts + 1)` loop of `_call_vdi`
(`app.py`).  `left` counts the attempts remaining including the current one
(`left = 0` is the unreachable fall-through `raise` after the loop), `idx`
is the zero-based attempt index, and `last` is `last_detail`.  A retryable
outcome on the final attempt raises; otherwise the loop sleeps
`min(backoff_max, backoff_base * 2 ** (attempt - 1))` and retries.  A
non-retryable 4xx raises immediately; any other response returns its decoded
body (an undecodable success body raises). -/
def vdiLoop (outs : Nat → CallOutcome) (base cap : ℚ) :
    Nat → Nat → Detail → CallRes
  | 0, _, last => ⟨.error (.unavailable last), 0, []⟩
  | left + 1, idx, _ =>
    match outs idx with
    | .transportError msg =>
      if left = 0 then ⟨.error (.unavailable (.ofText msg)), 1, []⟩
      else
        let r := vdiLoop outs base cap left (idx + 1) (.ofText msg)
        ⟨r.result, r.calls + 1, min cap (base * 2 ^ idx) :: r.delays⟩
    | .response s js tx =>
      if s == 429 || 500 ≤ s then
        if left = 0 then ⟨.error (.http s (jsonOrText js tx)), 1, []⟩
        else
          let r := vdiLoop outs base cap left (idx + 1) (jsonOrText js tx)
          ⟨r.result, r.calls + 1, min cap (base * 2 ^ idx) :: r.delays⟩
      else if 400 ≤ s then
        ⟨.error (.http s (jsonOrText js tx)), 1, []⟩
      else
        match js with
        | some j => ⟨.ok j, 1, []⟩
        | none => ⟨.error .jsonError, 1, []⟩

/-- Retry configuration of `_call_vdi`: the parsed `VDI_RETRY_ATTEMPTS`
integer and the backoff base/cap seconds (exact dyadic rationals at their
defaults 0.25 and 2.0). -/
structure VdiConfig where
  attempts : Int
  backoffBase : ℚ
  backoffMax : ℚ
deriving DecidableEq, Repr

/-- `attempts = max(1, int(os.getenv("VDI_RETRY_ATTEMPTS", "3")))`. -/
def vdiAttempts (cfg : VdiConfig) : Nat :=
  (max 1 cfg.attempts).toNat

/-- `_call_vdi` (`app.py`): run the bounded-retry loop from attempt 1 with
`last_detail = "unknown_error"`. -/
def callVdi (cfg : VdiConfig) (outs : Nat → CallOutcome) : CallRes :=
  vdiLoop outs cfg.backoffBase cfg.backoffMax (vdiAttempts cfg) 0 (.ofText "unknown_error")

/-! ## Concrete fixtures used by the theorems -/

/-- The spec's end-to-end envelope: intent `turn_on`, device class `light`,
risk level `low` (all other fields at their defaults). -/
def envTurnOnLight : ActionEnvelope :=
  ⟨"a1", "p1", ⟨"light-1", "light", none, none⟩, ⟨"turn_on", []⟩, .low,
    ⟨none, 0, none, none⟩, ⟨[], none, none, .low⟩, none⟩

/-- `envTurnOnLight` at risk level `high`. -/
def envTurnOnLightHigh : ActionEnvelope :=
  { envTurnOnLight with risk_level := .high }

/-- Default configuration (no policy URL, no auth, no required scopes) with a
registry containing only the `MockHomeDriver`, per the spec's end-to-end
test. -/
def cfgMockOnly : AppConfig :=
  ⟨["low", "medium"], none, false, false, none, [], [.mockHome], false, none,
    "mqtt://localhost:1883"⟩

/-- Default configuration with an external policy endpoint configured. -/
def cfgWithPolicy : AppConfig :=
  { cfgMockOnly with policyUrl := some "http://policy:8084" }

/-! ## Claim theorems -/

/-- C1 (code_bug): the claim says the dispatcher's risk-ceiling rejection
fires iff the envelope's severity rank strictly exceeds the ceiling's rank
(low 0 < medium 1 < high 2), never comparing the symbolic strings.  The code
compares the `(str, Enum)` members with `>`, which is lexicographic string
comparison: at the failing input — envelope risk `low` against the default
ceiling `high` (e.g. `MockHomeDriver`) — the code rejects ("low" > "high"
lexicographically) although rank(low) = 0 does not exceed rank(high) = 2. -/
theorem c1_risk_ceiling_uses_string_order :
    Driver.max_risk_level Driver.mockHome = "high"
    ∧ riskOfString "high" = some RiskLevel.high
    ∧ riskExceedsPy RiskLevel.low RiskLevel.high = true
    ∧ riskRank RiskLevel.low ≤ riskRank RiskLevel.high := by
  refine ⟨rfl, rfl, by decide, by decide⟩

/-- C2 (code_bug): the claim (and the spec's end-to-end test) says dispatching
the `turn_on`/`light`/`low` envelope against `[MockHomeDriver]` under the
default configuration completes with `status=completed, driver=mock-home`.
The code instead raises the risk-ceiling 403, because the lexicographic
comparison "low" > "high" is true; with the spec's severity-rank comparison
substituted, the same dispatch does return the claimed result. -/
theorem c2_end_to_end_dispatch_rejected :
    actuate cfgMockOnly envTurnOnLight (.response 200 none) none
      = (.error (.http 403 "Risk level exceeds driver allowance"), false)
    ∧ actuateWith riskExceedsRank cfgMockOnly envTurnOnLight (.response 200 none) none
      = (.ok (.result ⟨"a1", "completed", some "Mock home action turn_on applied",
          [("device_id", .s "light-1"), ("intent", .s "turn_on")], some "mock-home"⟩),
         false) := by
  exact ⟨rfl, rfl⟩

/-- C3 counterexample: a capability named `*` with an empty device-class set
does not match an envelope whose intent is `turn_on` — `Capability.matches`
gives the wildcard name no special treatment. -/
theorem c3_wildcard_not_matched :
    Capability.matches ⟨"*", []⟩ envTurnOnLight = false := by
  rfl

/-- C3 (amended): a capability matches exactly when the envelope's intent
name equals the capability's name AND (the capability's device-class set is
empty OR contains the target's device class); the wildcard name `*` has no
special treatment in `Capability.matches` (wildcard acceptance is implemented
by `LoggingDriver.can_handle` instead). -/
theorem c3_matches_characterization (c : Capability) (env : ActionEnvelope) :
    c.matches env
      = (env.intent.name == c.name
          && (c.device_classes.isEmpty
            || c.device_classes.contains env.target.device_class)) := by
  unfold Capability.matches
  cases hE : c.device_classes.isEmpty
    <;> cases hC : c.device_classes.contains env.target.device_class
    <;> simp [hE, hC]

/-- C7 (confirmed): whenever the envelope's risk level is not in the
configured allowed set, `evaluate_policy` returns `permitted=false`,
`status="rejected"` immediately — for every network oracle, with the
external-call flag `false` (no external call is made). -/
theorem c7_disallowed_risk_rejected_locally (cfg : AppConfig) (env : ActionEnvelope)
    (net : PolicyNet)
    (h : cfg.allowedRiskLevels.contains env.risk_level.val = false) :
    evaluate_policy cfg env net
      = (.ok ⟨false, "rejected", some (riskRejectReason env.risk_level),
          env.risk_level, false, none⟩, false) := by
  have h' : env.risk_level.val ∉ cfg.allowedRiskLevels := by
    simpa using h
  simp [evaluate_policy, h']

/-- Witness for C7: the default allowed set is `low,medium`; a `high`-risk
envelope is rejected locally with no external call. -/
theorem c7_witness :
    evaluate_policy cfgWithPolicy envTurnOnLightHigh (.response 200 none)
      = (.ok ⟨false, "rejected", some (riskRejectReason RiskLevel.high),
          RiskLevel.high, false, none⟩, false) :=
  c7_disallowed_risk_rejected_locally cfgWithPolicy envTurnOnLightHigh
    (.response 200 none) (by decide)

/-- C4 counterexample: a 200 policy response whose body carries a
`rewritten_intent` yields a Decision whose `rewritten_intent` is `None` —
`evaluate_policy` never maps that field. -/
theorem c4_rewritten_intent_not_mapped :
    (evaluate_policy cfgWithPolicy envTurnOnLight
        (.response 200 (some ⟨some true, some "permitted", some "ok", some false,
          some ⟨"dimmed_on", []⟩⟩))).1
      = .ok ⟨true, "permitted", some "ok", RiskLevel.low, false, none⟩ := by
  rfl

/-- C4 (amended): a success response has its `permitted`, `status`, `reason`
and `requires_confirmation` fields mapped into the Decision, but
`rewritten_intent` is never populated from the response (it stays `None`);
the Dispatcher does substitute a non-null `rewritten_intent` into the
envelope before invoking the executor (shown on a concrete dispatch where the
routed `turn_on` envelope is executed as `set_brightness`), though decisions
produced by `evaluate_policy` never carry one. -/
theorem c4_success_mapping (cfg : AppConfig) (env : ActionEnvelope) :
    (∀ u s b, cfg.policyUrl = some u →
      cfg.allowedRiskLevels.contains env.risk_level.val = true →
      200 ≤ s → s ≤ 299 →
      evaluate_policy cfg env (.response s (some b))
        = (.ok ⟨b.permitted.getD false, b.status.getD "unknown", b.reason,
            env.risk_level, b.requires_confirmation.getD false, none⟩, true))
    ∧ actuate_core riskExceedsPy cfgMockOnly envTurnOnLightHigh
        ⟨true, "permitted", none, .high, false, some ⟨"set_brightness", []⟩⟩
      = .ok (.result ⟨"a1", "completed", some "Mock home action set_brightness applied",
          [("device_id", .s "light-1"), ("intent", .s "set_brightness")],
          some "mock-home"⟩) := by
  constructor
  · intro u s b hUrl hAllowed h200 h299
    have hm : env.risk_level.val ∈ cfg.allowedRiskLevels := by
      simpa using hAllowed
    have hs : ¬ (400 ≤ s) := by omega
    simp [evaluate_policy, hm, hUrl, hs]
  · rfl

/-- Witness for C4's amended theorem: concrete mapped response. -/
theorem c4_witness :
    evaluate_policy cfgWithPolicy envTurnOnLight
        (.response 200 (some ⟨some true, some "granted", some "fine", some true, none⟩))
      = (.ok ⟨true, "granted", some "fine", RiskLevel.low, true, none⟩, true) :=
  (c4_success_mapping cfgWithPolicy envTurnOnLight).1 "http://policy:8084" 200
    ⟨some true, some "granted", some "fine", some true, none⟩
    rfl (by decide) (by decide) (by decide)

/-- C5 counterexample: with a policy endpoint configured, the claim fails at
three concrete inputs.  A transport error escapes `evaluate_policy` as an
exception (a fatal error for the request) instead of becoming a
`permitted=false` Decision; a 200 response whose body says
`permitted: false` with no reason yields a Decision with `permitted=false`
and a null reason; and a non-2xx response with status 301 is NOT treated as
denial — the code only checks `status_code >= 400`, so the 301 body is
mapped like a success and can yield `permitted=true`. -/
theorem c5_failure_counterexamples :
    evaluate_policy cfgWithPolicy envTurnOnLight (.transportError "connection refused")
      = (.error (.transport "connection refused"), true)
    ∧ (evaluate_policy cfgWithPolicy envTurnOnLight
        (.response 200 (some ⟨some false, some "rejected", none, none, none⟩))).1
      = .ok ⟨false, "rejected", none, RiskLevel.low, false, none⟩
    ∧ (evaluate_policy cfgWithPolicy envTurnOnLight
        (.response 301 (some ⟨some true, some "permitted", none, some false, none⟩))).1
      = .ok ⟨true, "permitted", none, RiskLevel.low, false, none⟩ := by
  exact ⟨rfl, rfl, rfl⟩

/-- C5 (amended): a policy response with status ≥ 400 is treated as denial —
`evaluate_policy` returns `permitted=false`, `status="rejected"` with a
non-null reason naming the status code; but a transport error is not
converted to denial: the `httpx` exception propagates out of
`evaluate_policy`.  (Locally generated denials always carry a reason; a
mapped success-response denial may carry `reason=None`, as the
counterexample shows.) -/
theorem c5_failure_semantics (cfg : AppConfig) (env : ActionEnvelope) :
    (∀ u s body?, cfg.policyUrl = some u →
      cfg.allowedRiskLevels.contains env.risk_level.val = true →
      400 ≤ s →
      evaluate_policy cfg env (.response s body?)
        = (.ok ⟨false, "rejected",
            some ("Policy evaluation failed (" ++ toString s ++ ")"),
            env.risk_level, false, none⟩, true))
    ∧ (∀ u m, cfg.policyUrl = some u →
        cfg.allowedRiskLevels.contains env.risk_level.val = true →
        evaluate_policy cfg env (.transportError m)
          = (.error (.transport m), true)) := by
  constructor
  · intro u s body? hUrl hAllowed hs
    have hm : env.risk_level.val ∈ cfg.allowedRiskLevels := by
      simpa using hAllowed
    simp [evaluate_policy, hm, hUrl, hs]
  · intro u m hUrl hAllowed
    have hm : env.risk_level.val ∈ cfg.allowedRiskLevels := by
      simpa using hAllowed
    simp [evaluate_policy, hm, hUrl]

/-- Witness for C5's amended theorem: a 503 policy response becomes a
rejection carrying the status code in its reason. -/
theorem c5_witness :
    evaluate_policy cfgWithPolicy envTurnOnLight (.response 503 none)
      = (.ok ⟨false, "rejected",
          some ("Policy evaluation failed (" ++ toString 503 ++ ")"),
          RiskLevel.low, false, none⟩, true) :=
  (c5_failure_semantics cfgWithPolicy envTurnOnLight).1 "http://policy:8084" 503
    none rfl (by decide) (by decide)

/-- Configuration with bearer-token auth required, a configured service
token, and an external policy endpoint — the full-stack setting of C10. -/
def cfgAuthPolicy : AppConfig :=
  { cfgWithPolicy with
    requireAuth := true,
    serviceToken := some "secret-token",
    drivers := defaultRegistry }

/-- C8 (confirmed): routing scans the registered list in order; a returned
driver can handle the envelope and every driver registered before it cannot
(first match wins); when no registered driver matches, routing fails with the
no-capable-executor `DriverError`; concretely, with the wildcard-accepting
`LoggingDriver` as A and `MockHomeDriver` as B, order [A, B] routes the
`turn_on`/`light` envelope to A (shadowing) and order [B, A] routes it
to B. -/
theorem c8_routing_first_match (env : ActionEnvelope) (ds : List Driver) :
    (∀ d, route ds env = .ok d →
      d.can_handle env = true
      ∧ ∃ pre post, ds = pre ++ d :: post ∧ ∀ d' ∈ pre, d'.can_handle env = false)
    ∧ ((∀ d ∈ ds, d.can_handle env = false) →
      route ds env = .error ("No driver registered for intent '" ++ env.intent.name
        ++ "' and device_class '" ++ env.target.device_class ++ "'"))
    ∧ route [Driver.logging, Driver.mockHome] envTurnOnLight = .ok Driver.logging
    ∧ route [Driver.mockHome, Driver.logging] envTurnOnLight = .ok Driver.mockHome := by
  refine ⟨?_, ?_, rfl, rfl⟩
  · induction ds with
    | nil =>
      intro d h
      simp [route] at h
    | cons a as ih =>
      intro d h
      cases hc : a.can_handle env with
      | true =>
        simp only [route, hc, if_true] at h
        injection h with h
        subst h
        exact ⟨hc, [], as, rfl, by simp⟩
      | false =>
        simp [route, hc] at h
        obtain ⟨hd, pre, post, hsplit, hpre⟩ := ih d h
        refine ⟨hd, a :: pre, post, by simp [hsplit], ?_⟩
        intro d' hd'
        rcases List.mem_cons.mp hd' with h1 | h1
        · exact h1 ▸ hc
        · exact hpre d' h1
  · induction ds with
    | nil => intro _; rfl
    | cons a as ih =>
      intro h
      have ha : a.can_handle env = false := h a (List.mem_cons_self a as)
      have has : ∀ d ∈ as, d.can_handle env = false :=
        fun d hd => h d (List.mem_cons_of_mem a hd)
      simp [route, ha]
      exact ih has

/-- Witness for C8: the routed driver can handle the envelope, and an
all-miss registry produces the no-capable-executor error. -/
theorem c8_witness :
    Driver.can_handle Driver.mockHome envTurnOnLight = true
    ∧ route [Driver.desktop] envTurnOnLight
      = .error ("No driver registered for intent '" ++ envTurnOnLight.intent.name
          ++ "' and device_class '" ++ envTurnOnLight.target.device_class ++ "'") := by
  constructor
  · exact ((c8_routing_first_match envTurnOnLight [Driver.mockHome]).1
      Driver.mockHome rfl).1
  · exact (c8_routing_first_match envTurnOnLight [Driver.desktop]).2.1 (by decide)

/-- C10 (confirmed, with FastAPI's declaration-order dependency resolution
embedded in `actuateWith`): on `POST /actuate` the `get_decision` dependency
resolves before `verify_auth`, so when auth is required and the presented
token is invalid, a gate denial still surfaces as the 403 policy rejection —
with the external policy call (when configured) already made, as the external
call flag records — while the 401 is returned only when the gate permits.
The closed conjunct shows a request with no token at all receiving the
403 with the policy's reason and the external-call flag `true`. -/
theorem c10_gate_runs_before_auth (cfg : AppConfig) (env : ActionEnvelope)
    (net : PolicyNet) (hdr : Option String)
    (hAuth : verify_auth cfg hdr = .error (.http 401 "Invalid or missing service token")) :
    (∀ d called, evaluate_policy cfg env net = (.ok d, called) → d.permitted = false →
      actuate cfg env net hdr
        = (.error (.http 403 (pyOrStr d.reason "Policy rejected action")), called))
    ∧ (∀ d called, evaluate_policy cfg env net = (.ok d, called) → d.permitted = true →
      actuate cfg env net hdr
        = (.error (.http 401 "Invalid or missing service token"), called))
    ∧ actuate cfgAuthPolicy envTurnOnLight
        (.response 200 (some ⟨some false, some "rejected", some "nope", some false, none⟩))
        none
      = (.error (.http 403 "nope"), true) := by
  refine ⟨?_, ?_, rfl⟩
  · intro d called hEval hPerm
    have h1 : get_decision cfg env net
        = (.error (.http 403 (pyOrStr d.reason "Policy rejected action")), called) := by
      unfold get_decision
      rw [hEval]
      simp [hPerm]
    unfold actuate actuateWith
    rw [h1]
  · intro d called hEval hPerm
    have h1 : get_decision cfg env net = (.ok d, called) := by
      unfold get_decision
      rw [hEval]
      simp [hPerm]
    unfold actuate actuateWith
    rw [h1, hAuth]

/-- Witness for C10: with auth required and no token presented, a permitting
gate leads to the 401 — and the gate's external call has been made. -/
theorem c10_witness :
    actuate cfgAuthPolicy envTurnOnLight
        (.response 200 (some ⟨some true, some "permitted", none, some false, none⟩)) none
      = (.error (.http 401 "Invalid or missing service token"), true) :=
  (c10_gate_runs_before_auth cfgAuthPolicy envTurnOnLight
      (.response 200 (some ⟨some true, some "permitted", none, some false, none⟩)) none
      (by rfl)).2.1
    ⟨true, "permitted", none, .low, false, none⟩ true rfl rfl

/-! ## Ring-buffer lemmas -/

theorem lastN_nil (k : Nat) : lastN k ([] : List α) = [] := by
  simp [lastN]

theorem lastN_of_le (k : Nat) (l : List α) (h : l.length ≤ k) : lastN k l = l := by
  unfold lastN
  rw [Nat.sub_eq_zero_of_le h, List.drop_zero]

theorem lastN_idem (k : Nat) (l : List α) : lastN k (lastN k l) = lastN k l := by
  apply lastN_of_le
  simp [lastN, List.length_drop]
  omega

theorem lastN_append (k : Nat) (x y : List α) :
    lastN k (lastN k x ++ y) = lastN k (x ++ y) := by
  simp only [lastN, List.length_append, List.length_drop,
    List.drop_append_eq_append_drop, List.drop_drop]
  congr 2
  · omega
  · omega

theorem lastN_lastN (a b : Nat) (l : List α) :
    lastN a (lastN b l) = lastN (min a b) l := by
  simp only [lastN, List.length_drop, List.drop_drop]
  congr 1
  omega

theorem dequePush_eq_lastN (cap : Nat) (buf : List α) (e : α) :
    dequePush cap buf e = lastN cap (buf ++ [e]) := by
  simp only [dequePush, lastN]
  by_cases h : cap < (buf ++ [e]).length
  · rw [if_pos h]
  · rw [if_neg h, Nat.sub_eq_zero_of_le (Nat.le_of_not_lt h), List.drop_zero]

theorem foldl_telemetryPush (evs : List α) :
    ∀ buf : List α, buf.length ≤ 100 →
      evs.foldl telemetryPush buf = lastN 100 (buf ++ evs) := by
  induction evs with
  | nil =>
    intro buf hb
    rw [List.foldl_nil, List.append_nil, lastN_of_le 100 buf hb]
  | cons e es ih =>
    intro buf hb
    have hlen : (telemetryPush buf e).length ≤ 100 := by
      rw [telemetryPush, dequePush_eq_lastN]
      simp [lastN, List.length_drop]
      omega
    rw [List.foldl_cons, ih (telemetryPush buf e) hlen, telemetryPush,
      dequePush_eq_lastN, lastN_append]
    congr 1
    simp

theorem publishAll_eq_lastN (evs : List α) : publishAll evs = lastN 100 evs := by
  unfold publishAll
  rw [foldl_telemetryPush evs [] (by simp)]
  rfl

set_option maxRecDepth 20000 in
/-- C6 counterexample: `recent(limit)` does not return `min(N, limit)` events
in two corners — after 1 published event, `limit = 0` returns 1 event (the
Python slice `[-0:]` is the whole list), not `min(1,0) = 0`; and after 120
published events, `limit = 110` returns the 100 buffered events, not
`min(120,110) = 110`. -/
theorem c6_limit_edge_cases :
    (telemetry_recent (publishAll [(0 : Nat)]) 0).length = 1
    ∧ (telemetry_recent (publishAll (List.range 120)) 110).length = 100
    ∧ min 120 110 = 110 := by
  refine ⟨rfl, by decide, rfl⟩

/-- C6 (amended): for every sequence of published events and every
`limit ≥ 1`, `recent(limit)` returns exactly the
`min(limit, 100, N)` most recently published events in publish order (the
suffix of the published sequence); the buffer itself always holds exactly the
last `min(N, 100)` events, so after more than 100 events only the last 100
remain (oldest evicted silently).  `limit = 0` returns the entire buffer
rather than 0 events. -/
theorem c6_ring_buffer (evs : List α) (limit : Nat) :
    (1 ≤ limit →
      telemetry_recent (publishAll evs) limit = lastN (min limit 100) evs)
    ∧ publishAll evs = lastN 100 evs
    ∧ telemetry_recent (publishAll evs) 0 = publishAll evs := by
  refine ⟨?_, publishAll_eq_lastN evs, by rw [telemetry_recent, if_pos rfl]⟩
  intro hl
  have h0 : telemetry_recent (publishAll evs) limit = lastN limit (publishAll evs) := by
    rw [telemetry_recent, if_neg (by omega)]
    rfl
  rw [h0, publishAll_eq_lastN, lastN_lastN]

/-- Witness for C6: three events, limit 2 — the last two events in order. -/
theorem c6_witness :
    telemetry_recent (publishAll [(1 : Nat), 2, 3]) 2 = lastN (min 2 100) [1, 2, 3]
    ∧ publishAll [(1 : Nat), 2, 3] = lastN 100 [1, 2, 3] := by
  have h := c6_ring_buffer [(1 : Nat), 2, 3] 2
  exact ⟨h.1 (by decide), h.2.1⟩

/-! ## Task-proxy retry loop lemmas -/

/-- Full characterization of the `_call_vdi` retry loop, proved in one
induction on the remaining attempts: call-count bounds, the backoff-delay
schedule, that only retryable outcomes are retried, and the classification of
the result by the outcome of the final call. -/
theorem vdiLoop_spec (outs : Nat → CallOutcome) (base cap : ℚ) :
    ∀ (left idx : Nat) (last : Detail), 1 ≤ left →
      (1 ≤ (vdiLoop outs base cap left idx last).calls
        ∧ (vdiLoop outs base cap left idx last).calls ≤ left)
      ∧ (vdiLoop outs base cap left idx last).delays
          = (List.range ((vdiLoop outs base cap left idx last).calls - 1)).map
              (fun i => min cap (base * 2 ^ (idx + i)))
      ∧ (∀ i, i + 1 < (vdiLoop outs base cap left idx last).calls →
          retryableB (outs (idx + i)) = true)
      ∧ (retryableB (outs (idx + ((vdiLoop outs base cap left idx last).calls - 1))) = true →
          (vdiLoop outs base cap left idx last).calls = left
          ∧ (vdiLoop outs base cap left idx last).result
              = .error (exhaustErr (outs (idx + ((vdiLoop outs base cap left idx last).calls - 1)))))
      ∧ (∀ s js tx,
          outs (idx + ((vdiLoop outs base cap left idx last).calls - 1)) = .response s js tx →
          400 ≤ s → (s == 429 || 500 ≤ s) = false →
          (vdiLoop outs base cap left idx last).result = .error (.http s (jsonOrText js tx)))
      ∧ (∀ s js tx,
          outs (idx + ((vdiLoop outs base cap left idx last).calls - 1)) = .response s js tx →
          s < 400 →
          (vdiLoop outs base cap left idx last).result
            = (match js with
              | some j => Except.ok j
              | none => Except.error VdiError.jsonError)) := by
  intro left
  induction left with
  | zero => intro idx last h; exact absurd h (by omega)
  | succ l ih =>
    intro idx last _
    cases houts : outs idx with
    | transportError msg =>
      by_cases hl : l = 0
      · subst hl
        simp only [vdiLoop, houts, reduceIte]
        refine ⟨⟨le_refl 1, le_refl 1⟩, by simp, ?_, ?_, ?_, ?_⟩
        · intro i hi
          omega
        · intro _
          simp [houts, exhaustErr]
        · intro s js tx hout
          rw [show idx + (1 - 1) = idx by omega, houts] at hout
          cases hout
        · intro s js tx hout
          rw [show idx + (1 - 1) = idx by omega, houts] at hout
          cases hout
      · have hIH := ih (idx + 1) (.ofText msg) (by omega)
        simp only [vdiLoop, houts, if_neg hl]
        obtain ⟨⟨hc1, hc2⟩, hdel, hretry, hexh, h4xx, hsucc⟩ := hIH
        have hidx : ∀ k : Nat, idx + (k + 1 - 1) = idx + k := by
          intro k
          omega
        refine ⟨⟨by omega, by omega⟩, ?_, ?_, ?_, ?_, ?_⟩
        · rw [hdel, show (vdiLoop outs base cap l (idx + 1) (.ofText msg)).calls + 1 - 1
              = ((vdiLoop outs base cap l (idx + 1) (.ofText msg)).calls - 1) + 1 from by omega,
            List.range_succ_eq_map, List.map_cons, List.map_map]
          congr 1
          apply List.map_congr_left
          intro a _
          simp only [Function.comp_apply]
          rw [show idx + 1 + a = idx + (a + 1) from by omega]
        · intro i hi
          match i with
          | 0 =>
            rw [Nat.add_zero, houts]
            rfl
          | Nat.succ j =>
            have := hretry j (by simpa using hi)
            rw [show idx + (j + 1) = idx + 1 + j from by omega]
            exact this
        · intro hret
          rw [hidx] at hret ⊢
          rw [show idx + (vdiLoop outs base cap l (idx + 1) (.ofText msg)).calls
              = idx + 1 + ((vdiLoop outs base cap l (idx + 1) (.ofText msg)).calls - 1) from by omega] at hret ⊢
          obtain ⟨hA, hB⟩ := hexh hret
          exact ⟨by omega, hB⟩
        · intro s js tx hout h400 hnr
          rw [hidx] at hout
          rw [show idx + (vdiLoop outs base cap l (idx + 1) (.ofText msg)).calls
              = idx + 1 + ((vdiLoop outs base cap l (idx + 1) (.ofText msg)).calls - 1) from by omega] at hout
          exact h4xx s js tx hout h400 hnr
        · intro s js tx hout h400
          rw [hidx] at hout
          rw [show idx + (vdiLoop outs base cap l (idx + 1) (.ofText msg)).calls
              = idx + 1 + ((vdiLoop outs base cap l (idx + 1) (.ofText msg)).calls - 1) from by omega] at hout
          exact hsucc s js tx hout h400
    | response s0 js0 tx0 =>
      by_cases hs : (s0 == 429 || 500 ≤ s0) = true
      · by_cases hl : l = 0
        · subst hl
          simp only [vdiLoop, houts, if_pos hs, reduceIte]
          refine ⟨⟨le_refl 1, le_refl 1⟩, by simp, ?_, ?_, ?_, ?_⟩
          · intro i hi
            omega
          · intro _
            simp [houts, exhaustErr]
          · intro s js tx hout _ hnr
            rw [show idx + (1 - 1) = idx by omega, houts] at hout
            injection hout with e1 e2 e3
            subst e1
            rw [hnr] at hs
            cases hs
          · intro s js tx hout hlt
            rw [show idx + (1 - 1) = idx by omega, houts] at hout
            injection hout with e1 e2 e3
            subst e1
            simp at hs
            omega
        · have hIH := ih (idx + 1) (jsonOrText js0 tx0) (by omega)
          simp only [vdiLoop, houts, if_pos hs, if_neg hl]
          obtain ⟨⟨hc1, hc2⟩, hdel, hretry, hexh, h4xx, hsucc⟩ := hIH
          have hidx : ∀ k : Nat, idx + (k + 1 - 1) = idx + k := by
            intro k
            omega
          refine ⟨⟨by omega, by omega⟩, ?_, ?_, ?_, ?_, ?_⟩
          · rw [hdel, show (vdiLoop outs base cap l (idx + 1) (jsonOrText js0 tx0)).calls + 1 - 1
                = ((vdiLoop outs base cap l (idx + 1) (jsonOrText js0 tx0)).calls - 1) + 1 from by omega,
              List.range_succ_eq_map, List.map_cons, List.map_map]
            congr 1
            apply List.map_congr_left
            intro a _
            simp only [Function.comp_apply]
            rw [show idx + 1 + a = idx + (a + 1) from by omega]
          · intro i hi
            match i with
            | 0 =>
              rw [Nat.add_zero, houts]
              exact hs
            | Nat.succ j =>
              have := hretry j (by simpa using hi)
              rw [show idx + (j + 1) = idx + 1 + j from by omega]
              exact this
          · intro hret
            rw [hidx] at hret ⊢
            rw [show idx + (vdiLoop outs base cap l (idx + 1) (jsonOrText js0 tx0)).calls
                = idx + 1 + ((vdiLoop outs base cap l (idx + 1) (jsonOrText js0 tx0)).calls - 1) from by omega] at hret ⊢
            obtain ⟨hA, hB⟩ := hexh hret
            exact ⟨by omega, hB⟩
          · intro s js tx hout h400 hnr
            rw [hidx] at hout
            rw [show idx + (vdiLoop outs base cap l (idx + 1) (jsonOrText js0 tx0)).calls
                = idx + 1 + ((vdiLoop outs base cap l (idx + 1) (jsonOrText js0 tx0)).calls - 1) from by omega] at hout
            exact h4xx s js tx hout h400 hnr
          · intro s js tx hout h400
            rw [hidx] at hout
            rw [show idx + (vdiLoop outs base cap l (idx + 1) (jsonOrText js0 tx0)).calls
                = idx + 1 + ((vdiLoop outs base cap l (idx + 1) (jsonOrText js0 tx0)).calls - 1) from by omega] at hout
            exact hsucc s js tx hout h400
      · by_cases h4 : 400 ≤ s0
        · simp only [vdiLoop, houts, Bool.not_eq_true] at hs ⊢
          simp only [hs, Bool.false_eq_true, if_false, if_pos h4]
          refine ⟨⟨le_refl 1, by omega⟩, by simp, ?_, ?_, ?_, ?_⟩
          · intro i hi
            omega
          · intro hret
            rw [show idx + (1 - 1) = idx by omega, houts] at hret
            simp [retryableB] at hret
            rw [Bool.or_eq_false_iff] at hs
            obtain ⟨hs1, hs2⟩ := hs
            rcases hret with h | h
            · simp at hs1
              omega
            · simp at hs2
              omega
          · intro s js tx hout _ _
            rw [show idx + (1 - 1) = idx by omega, houts] at hout
            injection hout with e1 e2 e3
            subst e1
            subst e2
            subst e3
            rfl
          · intro s js tx hout hlt
            rw [show idx + (1 - 1) = idx by omega, houts] at hout
            injection hout with e1 e2 e3
            subst e1
            omega
        · simp only [vdiLoop, houts, Bool.not_eq_true] at hs ⊢
          simp only [hs, Bool.false_eq_true, if_false, if_neg h4]
          have hres : (match js0 with
              | some j => (⟨Except.ok j, 1, []⟩ : CallRes)
              | none => (⟨Except.error VdiError.jsonError, 1, []⟩ : CallRes)).calls = 1 := by
            cases js0 <;> rfl
          cases js0 with
          | some j =>
            refine ⟨⟨le_refl 1, by omega⟩, by simp, ?_, ?_, ?_, ?_⟩
            · intro i hi
              omega
            · intro hret
              rw [show idx + (1 - 1) = idx by omega, houts] at hret
              simp [retryableB] at hret
              rw [Bool.or_eq_false_iff] at hs
              obtain ⟨hs1, hs2⟩ := hs
              rcases hret with h | h
              · simp at hs1
                omega
              · simp at hs2
                omega
            · intro s js tx hout h400 _
              rw [show idx + (1 - 1) = idx by omega, houts] at hout
              injection hout with e1 e2 e3
              subst e1
              omega
            · intro s js tx hout hlt
              rw [show idx + (1 - 1) = idx by omega, houts] at hout
              injection hout with e1 e2 e3
              subst e2
              rfl
          | none =>
            refine ⟨⟨le_refl 1, by omega⟩, by simp, ?_, ?_, ?_, ?_⟩
            · intro i hi
              omega
            · intro hret
              rw [show idx + (1 - 1) = idx by omega, houts] at hret
              simp [retryableB] at hret
              rw [Bool.or_eq_false_iff] at hs
              obtain ⟨hs1, hs2⟩ := hs
              rcases hret with h | h
              · simp at hs1
                omega
              · simp at hs2
                omega
            · intro s js tx hout h400 _
              rw [show idx + (1 - 1) = idx by omega, houts] at hout
              injection hout with e1 e2 e3
              subst e1
              omega
            · intro s js tx hout hlt
              rw [show idx + (1 - 1) = idx by omega, houts] at hout
              injection hout with e1 e2 e3
              subst e2
              rfl

/-- Retry configuration with the default backoff base 0.25s and cap 2.0s and
a given attempt count. -/
def vdiCfgN (n : Int) : VdiConfig :=
  ⟨n, 1 / 4, 2⟩

/-- Oracle: transport error on attempt 1, success on attempt 2. -/
def vdiOutsRecover : Nat → CallOutcome :=
  fun n => if n = 0 then .transportError "econnrefused" else .response 200 (some "result-body") ""

/-- Oracle: transport error on every attempt. -/
def vdiOutsFailAll : Nat → CallOutcome :=
  fun _ => .transportError "econnrefused"

/-- C9 (confirmed): `_call_vdi` makes between 1 and `max(1, N)` underlying
calls; every non-final call observed a retryable outcome (transport error,
HTTP 429 or 5xx) — so any other 4xx, and success, stop immediately — and the
delay slept after attempt `i` is exactly `min(cap, base * 2^(i-1))`; when the
final call's outcome is retryable, all attempts were exhausted and the raised
error carries the last observed detail (wrapped as the 502 upstream-unavailable
error for a transport failure, the pass-through status otherwise); a plain
4xx on the final call raises that status with its detail, and a success
response returns its decoded body.  Concretely: with 2 configured attempts, a
transport error then a success yields the successful body after exactly 2
calls (with one 0.25s backoff); with 1 configured attempt, a single transport
error raises the 502 immediately after 1 call. -/
theorem c9_task_proxy_retry (cfg : VdiConfig) (outs : Nat → CallOutcome) :
    (1 ≤ (callVdi cfg outs).calls ∧ (callVdi cfg outs).calls ≤ vdiAttempts cfg)
    ∧ (callVdi cfg outs).delays
        = (List.range ((callVdi cfg outs).calls - 1)).map
            (fun i => min cfg.backoffMax (cfg.backoffBase * 2 ^ i))
    ∧ (∀ i, i + 1 < (callVdi cfg outs).calls → retryableB (outs i) = true)
    ∧ (retryableB (outs ((callVdi cfg outs).calls - 1)) = true →
        (callVdi cfg outs).calls = vdiAttempts cfg
        ∧ (callVdi cfg outs).result
            = .error (exhaustErr (outs ((callVdi cfg outs).calls - 1))))
    ∧ (∀ s js tx, outs ((callVdi cfg outs).calls - 1) = .response s js tx →
        400 ≤ s → (s == 429 || 500 ≤ s) = false →
        (callVdi cfg outs).result = .error (.http s (jsonOrText js tx)))
    ∧ (∀ s js tx, outs ((callVdi cfg outs).calls - 1) = .response s js tx → s < 400 →
        (callVdi cfg outs).result
          = (match js with
            | some j => Except.ok j
            | none => Except.error VdiError.jsonError))
    ∧ callVdi (vdiCfgN 2) vdiOutsRecover = ⟨.ok "result-body", 2, [1 / 4]⟩
    ∧ callVdi (vdiCfgN 1) vdiOutsFailAll
        = ⟨.error (.unavailable (.ofText "econnrefused")), 1, []⟩ := by
  have hA : 1 ≤ vdiAttempts cfg := by
    unfold vdiAttempts
    omega
  have h := vdiLoop_spec outs cfg.backoffBase cfg.backoffMax (vdiAttempts cfg) 0
    (.ofText "unknown_error") hA
  simp only [Nat.zero_add] at h
  obtain ⟨hc, hdel, hret, hexh, h4, hs⟩ := h
  have hA2 : vdiAttempts (vdiCfgN 2) = 2 := by
    norm_num [vdiAttempts, vdiCfgN]
    rfl
  have hA1 : vdiAttempts (vdiCfgN 1) = 1 := by
    norm_num [vdiAttempts, vdiCfgN]
  refine ⟨hc, hdel, hret, hexh, h4, hs, ?_, ?_⟩
  · rw [callVdi, hA2]
    norm_num [vdiCfgN, vdiLoop, vdiOutsRecover, jsonOrText]
  · rw [callVdi, hA1]
    norm_num [vdiCfgN, vdiLoop, vdiOutsFailAll]

/-- Witness for C9: applying the retry characterization to the
all-transport-errors oracle with two attempts — exhaustion after exactly 2
calls with the 502 upstream-unavailable error carrying the last detail. -/
theorem c9_witness :
    (callVdi (vdiCfgN 2) vdiOutsFailAll).calls = vdiAttempts (vdiCfgN 2)
    ∧ (callVdi (vdiCfgN 2) vdiOutsFailAll).result
        = .error (exhaustErr (vdiOutsFailAll ((callVdi (vdiCfgN 2) vdiOutsFailAll).calls - 1))) :=
  (c9_task_proxy_retry (vdiCfgN 2) vdiOutsFailAll).2.2.2.1 rfl

end Unison
